import Mathlib

/-!
Verification development for the AIJobOptimizer resume parser.

Shallow embedding of the Python sources:
  src/optimizer/utils/parser.py   (search_field, get_statement, get_skills,
                                   get_experiences, get_date_range, parse_project,
                                   parse_experience, parse_expereinces, parse_json,
                                   parse_api_json)
  src/optimizer/utils/extract.py  (extract_by_quotation_mark)
  src/optimizer/utils/web.py      (retry)
  src/pages/6_Export_Resume.py    (choose_statement, choose_description)

Python JSON values are modelled by the inductive `JsonVal`; Python dicts are
association lists in insertion order (JSON inputs in the claims have no
duplicate keys).  Python `None` is `JsonVal.null`; fallible Python code is
modelled in `Except PyError`.  External LLM calls are modelled by an oracle
giving the *extraction result* of each query's reply, plus an explicit trace
of the issued calls.
-/

namespace AIJobOptimizer

/-- Model of a decoded Python/JSON value.  JSON numbers in the claims are
integers, so `num` carries an `Int`. -/
inductive JsonVal : Type where
  | str (s : String)
  | num (n : Int)
  | list (l : List JsonVal)
  | obj (o : List (String × JsonVal))
  | null

/-- A Python dict, as an association list in insertion order. -/
abbrev Dict := List (String × JsonVal)

/-- The Python runtime errors the embedded code can raise. -/
inductive PyError : Type where
  | typeError
  | attributeError
  | keyError
  | valueError
  | indexError
  deriving DecidableEq

/-- Python `v is None`. -/
def isNull : JsonVal → Bool
  | .null => true
  | _ => false

/-- Dict lookup (`obj[key]` when the key is present, `None`-signalling
otherwise).  First match; claim inputs have distinct keys. -/
def dictLookup : Dict → String → Option JsonVal
  | [], _ => none
  | (k, v) :: rest, key => if k = key then some v else dictLookup rest key

mutual
/-- Python `==` on decoded JSON values (structural; dicts in the claims are
compared only against strings and `None`, where order is irrelevant). -/
def pyEq : JsonVal → JsonVal → Bool
  | .str a, .str b => a = b
  | .num a, .num b => a = b
  | .list a, .list b => pyEqList a b
  | .obj a, .obj b => pyEqObj a b
  | .null, .null => true
  | _, _ => false

def pyEqList : List JsonVal → List JsonVal → Bool
  | [], [] => true
  | a :: as', b :: bs' => pyEq a b && pyEqList as' bs'
  | _, _ => false

def pyEqObj : List (String × JsonVal) → List (String × JsonVal) → Bool
  | [], [] => true
  | (ka, va) :: as', (kb, vb) :: bs' => ka = kb && pyEq va vb && pyEqObj as' bs'
  | _, _ => false
end

/-- Embeds `search_field` (parser.py lines 21-37): return the value of the first
candidate that is a key of `obj`, else `None`. -/
def search_field (obj : Dict) (candidates : List String) : JsonVal :=
  match candidates.find? (fun c => (dictLookup obj c).isSome) with
  | some key => (dictLookup obj key).getD .null
  | none => .null

/-- Embeds `get_statement` (parser.py lines 40-55). -/
def get_statement (resume : Dict) : JsonVal :=
  let statement := search_field resume
    ["profile", "personal_statement", "personal_profile", "statement"]
  if isNull statement then .str "" else statement

/-- Embeds `get_skills` (parser.py lines 58-81). -/
def get_skills (resume : Dict) : JsonVal :=
  let skills := search_field resume
    ["skills", "Core Competencies", "core_competencies", "Competencies",
     "competencies"]
  if isNull skills then .list [] else skills

/-- Embeds `get_experiences` (parser.py lines 84-100); note the source returns the
empty string (not a list) when nothing matches. -/
def get_experiences (resume : Dict) : JsonVal :=
  let experiences := search_field resume
    ["experience", "experiences", "work_experiences", "professional_experience"]
  if isNull experiences then .str "" else experiences

/-- The whitespace class stripped by Python `str.strip()` (ASCII part). -/
def isPySpace (c : Char) : Bool :=
  c == ' ' || c == '\t' || c == '\n' || c == '\r' ||
  c == Char.ofNat 11 || c == Char.ofNat 12

/-- Python `str.strip()` with no argument. -/
def pyStrip (s : String) : String :=
  ⟨((s.data.dropWhile isPySpace).reverse.dropWhile isPySpace).reverse⟩

/-- One left-to-right pass of non-overlapping pattern replacement; the fuel
starts at the length of the text, which bounds the recursion depth since the
pattern is non-empty. -/
def replaceGo (pat rep : List Char) : Nat → List Char → List Char
  | 0, cs => cs
  | _ + 1, [] => []
  | fuel + 1, c :: rest =>
    if pat.isPrefixOf (c :: rest) then
      rep ++ replaceGo pat rep fuel ((c :: rest).drop pat.length)
    else
      c :: replaceGo pat rep fuel rest

/-- Python `s.replace(pat, rep)`: all non-overlapping occurrences, left to
right; an empty pattern inserts `rep` at every boundary. -/
def pyReplace (s pat rep : String) : String :=
  match pat.data with
  | [] => ⟨rep.data ++ s.data.flatMap (fun c => c :: rep.data)⟩
  | _ => ⟨replaceGo pat.data rep.data s.data.length s.data⟩

/-- Splitting pass for a non-empty separator, fuelled like `replaceGo`. -/
def splitGo (sep : List Char) : Nat → List Char → List (List Char)
  | 0, cs => [cs]
  | _ + 1, [] => [[]]
  | fuel + 1, c :: rest =>
    if sep.isPrefixOf (c :: rest) then
      [] :: splitGo sep fuel ((c :: rest).drop sep.length)
    else
      match splitGo sep fuel rest with
      | [] => [[c]]
      | part :: parts => (c :: part) :: parts

/-- Python `s.split(sep)` for a non-empty separator. -/
def pySplit (s sep : String) : List String :=
  (splitGo sep.data s.data.length s.data).map (fun l => ⟨l⟩)

/-- Value of a non-empty all-digit string. -/
def natOfDigits : List Char → Nat → Option Nat
  | [], acc => some acc
  | c :: rest, acc =>
    if c.isDigit then natOfDigits rest (acc * 10 + (c.toNat - 48)) else none

/-- Python `int(s)` on a stripped string: optional sign then decimal digits
(`ValueError` otherwise, signalled by `none`). -/
def pyToInt (s : String) : Option Int :=
  match s.data with
  | [] => none
  | c :: rest =>
    if c == '-' then
      if rest.isEmpty then none else (natOfDigits rest 0).map (fun n => -(n : Int))
    else if c == '+' then
      if rest.isEmpty then none else (natOfDigits rest 0).map (fun n => (n : Int))
    else (natOfDigits (c :: rest) 0).map (fun n => (n : Int))

/-- The double-quote character (`"` , codepoint 34). -/
def dqChar : Char := Char.ofNat 34

/-- The single-quote character (codepoint 39). -/
def sqChar : Char := Char.ofNat 39

/-- Python `c in s` for a single character. -/
def strContainsChar (s : String) (c : Char) : Bool := s.data.contains c

/-- Indices at which character `q` occurs in `cs`. -/
def idxsOf (q : Char) (cs : List Char) : List Nat :=
  (List.range cs.length).filter (fun i => cs.get? i == some q)

/-- The slice `cs[a..b)`. -/
def sliceChars (cs : List Char) (a b : Nat) : List Char := (cs.drop a).take (b - a)

/-- First match of the lazy pattern between quotes `q...q` with DOTALL
(regex lookbehind-`.+?`-lookahead): the text from just after the first `q`
up to the next `q` at distance at least two. -/
def extractLazyQuote (q : Char) (cs : List Char) : Option (List Char) :=
  match idxsOf q cs with
  | [] => none
  | i :: rest =>
    match rest.find? (fun j => i + 2 ≤ j) with
    | some j => some (sliceChars cs (i + 1) j)
    | none => none

/-- First match of the greedy pattern between quotes `q...q` with DOTALL
(regex lookbehind-`.+`-lookahead): the text from just after the first `q`
up to the last `q`, provided at least one character lies between. -/
def extractGreedyQuote (q : Char) (cs : List Char) : Option (List Char) :=
  match idxsOf q cs with
  | [] => none
  | i :: rest =>
    match rest.getLast? with
    | some j => if i + 2 ≤ j then some (sliceChars cs (i + 1) j) else none
    | none => none

/-- Embeds `extract_by_quotation_mark` (extract.py lines 9-33): lazy match between
double quotes when a double quote occurs, else greedy match between single
quotes when a single quote occurs, else `None`. -/
def extract_by_quotation_mark (content : String) : Option String :=
  if strContainsChar content dqChar then
    (extractLazyQuote dqChar content.data).map (fun l => ⟨l⟩)
  else if strContainsChar content sqChar then
    (extractGreedyQuote sqChar content.data).map (fun l => ⟨l⟩)
  else none

/-- The title clean-up chain of `parse_project` (parser.py lines 261-266):
strip the `Project:` and `The project name is ` prefixes and prefer a quoted
fragment when one is present. -/
def clean_title (t : String) : String :=
  let t1 := pyStrip (pyReplace (pyStrip (pyReplace t "Project:" "")) "The project name is " "")
  match extract_by_quotation_mark t1 with
  | some t2 => t2
  | none => t1

/-- The description clean-up chain of `parse_project` (parser.py lines
257-260): remove the (raw) title and the `Project:` marker. -/
def clean_description (d t : String) : String :=
  pyStrip (pyReplace (pyStrip (pyReplace d t "")) "Project:" "")

/-- The character class kept by `re.sub(r'[^A-Za-z0-9 ]+', '', c)` in
`query_project_contributions` (parser.py lines 221-222). -/
def keepAlnumSpace (s : String) : String :=
  ⟨s.data.filter (fun c => c.isAlphanum || c == ' ')⟩

/-- Python `int(...)` on a decoded JSON value: numbers pass through, strings
are parsed (`ValueError` on failure), other shapes raise `TypeError`. -/
def pyInt : JsonVal → Except PyError Int
  | .num n => .ok n
  | .str s =>
    match pyToInt (pyStrip s) with
    | some n => .ok n
    | none => .error .valueError
  | _ => .error .typeError

/-- Subscripting `v[k]` for decoded JSON values: `KeyError` when the key is
missing, `TypeError` when `v` is not a dict. -/
def pyGetItem (v : JsonVal) (k : String) : Except PyError JsonVal :=
  match v with
  | .obj o =>
    match dictLookup o k with
    | some x => .ok x
    | none => .error .keyError
  | _ => .error .typeError

/-- The `datetime.strftime('%b')` month abbreviations (C locale); months outside
1..12 make the `datetime` constructor raise `ValueError`. -/
def monthAbbr : Int → Option String
  | 1 => some "Jan"
  | 2 => some "Feb"
  | 3 => some "Mar"
  | 4 => some "Apr"
  | 5 => some "May"
  | 6 => some "Jun"
  | 7 => some "Jul"
  | 8 => some "Aug"
  | 9 => some "Sep"
  | 10 => some "Oct"
  | 11 => some "Nov"
  | 12 => some "Dec"
  | _ => none

/-- Build the `datetime(year, month, 1)` month abbreviation, with the
constructor's `ValueError` range checks (`datetime.MINYEAR = 1`,
`MAXYEAR = 9999`). -/
def datetimeMonthAbbr (year month : Int) : Except PyError String :=
  if year < 1 ∨ 9999 < year then .error .valueError
  else
    match monthAbbr month with
    | some m => .ok m
    | none => .error .valueError

/-- Python `str(v)` as used in the `get_date_range` f-string.  It is only reached
for values already accepted by `int(...)`, so only numbers and strings can
occur there; other shapes are rendered as the empty string (unreachable). -/
def pyStrOfYear : JsonVal → String
  | .num n => toString n
  | .str s => s
  | .null => "None"
  | _ => ""

/-- The run of 18 spaces contributed by the continuation-line indentation of
the f-string in `get_date_range` (parser.py lines 121-122). -/
def dateIndent : String := ⟨List.replicate 18 ' '⟩

/-- Embeds `get_date_range` (parser.py lines 103-123): build the string
`f"{month_start} {exp['start']['year']} - \` followed by the 18-space
indented continuation `{month_end} {exp['end']['year']}`. -/
def get_date_range (exp : Dict) : Except PyError String := do
  let s ← pyGetItem (.obj exp) "start"
  let sy ← pyGetItem s "year"
  let sm ← pyGetItem s "month"
  let syi ← pyInt sy
  let smi ← pyInt sm
  let monthStart ← datetimeMonthAbbr syi smi
  let e ← pyGetItem (.obj exp) "end"
  let ey ← pyGetItem e "year"
  let em ← pyGetItem e "month"
  let eyi ← pyInt ey
  let emi ← pyInt em
  let monthEnd ← datetimeMonthAbbr eyi emi
  .ok (monthStart ++ " " ++ pyStrOfYear sy ++ " - " ++ dateIndent ++
       monthEnd ++ " " ++ pyStrOfYear ey)

/-- The external LLM queries that the parser can issue
(parser.py `query_project_title`, `query_project_description`,
`query_project_contributions`, `analyse_resume`). -/
inductive LLMCall : Type where
  | queryProjectTitle
  | queryProjectDescription
  | queryProjectContributions
  | analyseResume
  deriving DecidableEq

/-- Oracle for the LLM fallback queries.  Each field gives the *extraction
result* of the corresponding query's reply (`none` models a reply from which
`extract_code` / `extract_by_quotation_mark` recovers nothing).  The title
query sees the ambiguous value interpolated into its prompt; the description
query sees the (new) title value; the contributions query sees the final
title string. -/
structure LLMOracle : Type where
  titleReply : JsonVal → Option String
  descReply : JsonVal → Option String
  contribReply : String → Option String

/-- Result of an effectful parser step: the value or the Python error it
raised, the trace of LLM queries issued (in order, including those issued
before a crash), and the next index of the uuid supply. -/
structure PRes (α : Type) : Type where
  result : Except PyError α
  calls : List LLMCall
  next : Nat

/-- The post-processing of `query_project_contributions` (parser.py lines
217-225): on a usable reply, strip it, split on newlines and drop all
characters outside `[A-Za-z0-9 ]`; on `None`, the empty list. -/
def contributionsOfReply : Option String → JsonVal
  | some r => .list ((pySplit (pyStrip r) "\n").map (fun c => .str (keepAlnumSpace c)))
  | none => .list []

/-- Embeds `parse_project` (parser.py lines 228-272).  `gen c` is the uuid drawn by
`str(uuid.uuid4())`; the title is resolved from
`['project', 'description', 'title']` and the description from
`['project_description', 'project description', 'description']`; when the
description is `None` or equals the title, the two LLM fallback queries run
(title first, then description) and their results replace both fields; the
clean-up chains then require both fields to be strings
(`AttributeError` when the description is not a string,
`TypeError` when the title is not); missing contributions trigger the
contributions query. -/
def parse_project (oracle : LLMOracle) (gen : Nat → String) (c : Nat)
    (inp : Dict) : PRes Dict :=
  let uuid := gen c
  let t0 := search_field inp ["project", "description", "title"]
  let d0 := search_field inp ["project_description", "project description", "description"]
  let fallback := isNull d0 || pyEq d0 t0
  let t1 := if fallback then
              match oracle.titleReply t0 with
              | some s => JsonVal.str s
              | none => JsonVal.null
            else t0
  let d1 := if fallback then
              match oracle.descReply t1 with
              | some s => JsonVal.str s
              | none => JsonVal.null
            else d0
  let calls0 := if fallback then
                  [LLMCall.queryProjectTitle, LLMCall.queryProjectDescription]
                else []
  match d1 with
  | .str d =>
    match t1 with
    | .str t =>
      let desc := clean_description d t
      let title := clean_title t
      let contrib0 := search_field inp ["contributions", "key_contributions"]
      if isNull contrib0 then
        ⟨.ok [("uuid", .str uuid), ("title", .str title), ("description", .str desc),
              ("contributions", contributionsOfReply (oracle.contribReply title))],
         calls0 ++ [LLMCall.queryProjectContributions], c + 1⟩
      else
        ⟨.ok [("uuid", .str uuid), ("title", .str title), ("description", .str desc),
              ("contributions", contrib0)],
         calls0, c + 1⟩
    | _ => ⟨.error .typeError, calls0, c + 1⟩
  | _ => ⟨.error .attributeError, calls0, c + 1⟩

/-- The loop of `parse_experience` over `exp_out['projects']` (parser.py
lines 322-324): each entry is deep-copied and re-parsed in place; non-dict
entries are not modelled and raise `TypeError`. -/
def parse_projects (oracle : LLMOracle) (gen : Nat → String) (c : Nat) :
    List JsonVal → PRes (List JsonVal)
  | [] => ⟨.ok [], [], c⟩
  | p :: rest =>
    match p with
    | .obj o =>
      let r := parse_project oracle gen c o
      match r.result with
      | .error e => ⟨.error e, r.calls, r.next⟩
      | .ok d =>
        let rs := parse_projects oracle gen r.next rest
        ⟨rs.result.map (fun l => .obj d :: l), r.calls ++ rs.calls, rs.next⟩
    | _ => ⟨.error .typeError, [], c⟩

/-- Embeds `parse_experience` (parser.py lines 276-326): resolve title and company;
take `get_date_range` when a `start` key exists, else the first of
`dates`/`date`/`date_range`; when that is `None`, concatenate
`start_date + ' - ' + end_date`, which raises `TypeError` unless both are
strings; then parse the projects (the whole experience itself when no
`projects` key exists). -/
def parse_experience (oracle : LLMOracle) (gen : Nat → String) (c : Nat)
    (exp_in : Dict) : PRes Dict :=
  let title := search_field exp_in ["title", "position", "job_title"]
  let company := search_field exp_in ["company", "organisation", "employer"]
  let drE : Except PyError JsonVal :=
    if (dictLookup exp_in "start").isSome then
      (get_date_range exp_in).map .str
    else
      .ok (search_field exp_in ["dates", "date", "date_range"])
  match drE with
  | .error e => ⟨.error e, [], c⟩
  | .ok dr0 =>
    let drE2 : Except PyError JsonVal :=
      if isNull dr0 then
        match search_field exp_in ["start_date"] with
        | .str a =>
          match search_field exp_in ["end_date"] with
          | .str b => .ok (.str (a ++ " - " ++ b))
          | _ => .error .typeError
        | _ => .error .typeError
      else .ok dr0
    match drE2 with
    | .error e => ⟨.error e, [], c⟩
    | .ok dr =>
      let projects0 := search_field exp_in ["projects"]
      if isNull projects0 then
        let r := parse_project oracle gen c exp_in
        match r.result with
        | .error e => ⟨.error e, r.calls, r.next⟩
        | .ok d =>
          ⟨.ok [("title", title), ("company", company), ("date_range", dr),
                ("projects", .list [.obj d])], r.calls, r.next⟩
      else
        match projects0 with
        | .list ps =>
          let r := parse_projects oracle gen c ps
          ⟨r.result.map (fun l =>
              [("title", title), ("company", company), ("date_range", dr),
               ("projects", .list l)]),
           r.calls, r.next⟩
        | _ => ⟨.error .typeError, [], c⟩

/-- Embeds `parse_expereinces` (parser.py lines 329-357; source spelling kept):
each experience without a `uuid` key is parsed and then given a fresh uuid
(appended as the last key); an experience that already carries a `uuid` is
deep-copied unchanged.  Non-dict entries are not modelled and raise
`TypeError`. -/
def parse_expereinces (oracle : LLMOracle) (gen : Nat → String) (c : Nat) :
    List JsonVal → PRes (List JsonVal)
  | [] => ⟨.ok [], [], c⟩
  | e :: rest =>
    match e with
    | .obj o =>
      if (dictLookup o "uuid").isSome then
        let rs := parse_expereinces oracle gen c rest
        ⟨rs.result.map (fun l => e :: l), rs.calls, rs.next⟩
      else
        let r := parse_experience oracle gen c o
        match r.result with
        | .error err => ⟨.error err, r.calls, r.next⟩
        | .ok d =>
          let rs := parse_expereinces oracle gen (r.next + 1) rest
          ⟨rs.result.map (fun l => .obj (d ++ [("uuid", .str (gen r.next))]) :: l),
           r.calls ++ rs.calls, rs.next⟩
    | _ => ⟨.error .typeError, [], c⟩

/-- Python `len(v)` (strings, lists and dicts have a length; numbers and
`None` raise `TypeError`). -/
def pyLen : JsonVal → Except PyError Nat
  | .str s => .ok s.data.length
  | .list l => .ok l.length
  | .obj o => .ok o.length
  | _ => .error .typeError

/-- The session fields assembled by `parse_json` / `parse_api_json` that the
claims are about (statement, skills — also copied into `sorted_skills` and
`choosen_skills` — `max_skills_number` and experiences). -/
structure Session : Type where
  statement : JsonVal
  skills : JsonVal
  experiences : JsonVal
  maxSkillsNumber : Nat

/-- The iteration `skills += value` of `parse_json` (parser.py lines
370-372): lists extend element-wise, strings extend character-wise, dicts
contribute their keys, other values raise `TypeError`. -/
def pyExtend : JsonVal → Except PyError (List JsonVal)
  | .list l => .ok l
  | .str s => .ok (s.data.map (fun ch => .str ⟨[ch]⟩))
  | .obj o => .ok (o.map (fun kv => .str kv.fst))
  | _ => .error .typeError

/-- Flatten the `.values()` of the `skills` mapping as `parse_json` does. -/
def flattenSkillValues : List JsonVal → Except PyError (List JsonVal)
  | [] => .ok []
  | v :: rest => do
    let l ← pyExtend v
    let ls ← flattenSkillValues rest
    .ok (l ++ ls)

/-- Embeds `parse_json` (parser.py lines 360-378), applied to the already decoded
resume object: requires the keys `statement`, `skills` (a mapping, whose
values are concatenated) and `experiences`. -/
def parse_json (resume : Dict) : Except PyError Session := do
  let statement ← pyGetItem (.obj resume) "statement"
  let skillsObj ← pyGetItem (.obj resume) "skills"
  let vals ← match skillsObj with
             | .obj o => Except.ok (o.map (fun kv => kv.snd))
             | _ => Except.error PyError.attributeError
  let skills ← flattenSkillValues vals
  let experiences ← pyGetItem (.obj resume) "experiences"
  .ok ⟨statement, .list skills, experiences, skills.length⟩

/-- Embeds `parse_api_json` (parser.py lines 381-399), applied to the already
decoded reply object: statement, skills and experiences are resolved through
the candidate lists of `get_statement` / `get_skills` / `get_experiences`
and stored as returned. -/
def parse_api_json (resume : Dict) : Except PyError Session := do
  let statement := get_statement resume
  let skills := get_skills resume
  let n ← pyLen skills
  let experiences := get_experiences resume
  .ok ⟨statement, skills, experiences, n⟩

/-- The direct-JSON path of `parse_resume` (parser.py lines 449-469):
`parse_json` on the decoded input followed by `parse_expereinces` over the
stored experiences (which must be a list to be iterated as in the claims). -/
def parse_resume_direct (oracle : LLMOracle) (gen : Nat → String) (c : Nat)
    (resume : Dict) : PRes Session :=
  match parse_json resume with
  | .error e => ⟨.error e, [], c⟩
  | .ok sess =>
    match sess.experiences with
    | .list exps =>
      let r := parse_expereinces oracle gen c exps
      ⟨r.result.map (fun es => { sess with experiences := .list es }), r.calls, r.next⟩
    | _ => ⟨.error .typeError, [], c⟩

/-!  `retry` decorator (web.py lines 8-43).  The wrapper keeps the local
variables `num_tries` (decremented in the handler) and `m_delay`
(multiplied by `backoff` and capped at `max_delay`), but its loop condition
is `while tries > 1`, where `tries` is the decorator parameter that is never
modified inside the loop.  One `retryStep` is one loop iteration in which
the wrapped function is invoked and raises the retried exception. -/

/-- Local state of `f_retry`: `num_tries`, `m_delay`, plus the number of
invocations of the wrapped function made so far. -/
structure RetryState : Type where
  numTries : Int
  mDelay : Nat
  calls : Nat
  deriving DecidableEq

/-- The loop condition `while tries > 1:` — it reads the unchanging
decorator parameter, not the decremented `num_tries`. -/
def retryGuard (tries : Nat) : Bool := decide (1 < tries)

/-- One iteration of the loop body when the wrapped function raises the
retried exception: invoke it (count a call), sleep `m_delay`, decrement
`num_tries`, set `m_delay = min(m_delay * backoff, max_delay)`. -/
def retryStep (backoff maxDelay : Nat) (s : RetryState) : RetryState :=
  ⟨s.numTries - 1, min (s.mDelay * backoff) maxDelay, s.calls + 1⟩

/-- Run up to `n` loop iterations of `f_retry` against an always-failing
wrapped function, stopping early if the loop condition ever turns false. -/
def retryIter (tries backoff maxDelay : Nat) (s : RetryState) : Nat → RetryState
  | 0 => s
  | n + 1 =>
    if retryGuard tries then retryIter tries backoff maxDelay (retryStep backoff maxDelay s) n
    else s

/-- Entry state of `f_retry`: `m_delay = delay`, `num_tries = tries`, no
invocations yet. -/
def retryInit (tries delay : Nat) : RetryState := ⟨(tries : Int), delay, 0⟩

/-!  Version selection on the export page (6_Export_Resume.py).  The stored
choice is whatever the selecting page wrote into the session: 3_Statement.py
(lines 57 and 87) stores the selectbox's *integer* option for the statement,
while 5_Experiences.py (line 163) stores the *string* option `Version N` for
a project description.  `choose_statement` / `choose_description` are pure
reads that run `choice.split(' ')` on the stored value — an `AttributeError`
when the value is not a string. -/

/-- The session fields involved in statement and per-project description
version selection.  The choice fields hold the decoded session value of
whichever type the writing page stored. -/
structure ExportState : Type where
  statement : String
  new_statements : List String
  statement_choice : Option JsonVal
  projectDescription : String
  new_descriptions : Option (List String)
  description_choice : Option JsonVal

/-- Python list indexing `l[i]` with an `int` index (negative indices count
from the end; out of range raises `IndexError`). -/
def pyListGet {α : Type} (l : List α) (i : Int) : Except PyError α :=
  if 0 ≤ i then
    match l.get? i.toNat with
    | some x => .ok x
    | none => .error .indexError
  else if (-i).toNat ≤ l.length then
    match l.get? (l.length - (-i).toNat) with
    | some x => .ok x
    | none => .error .indexError
  else .error .indexError

/-- Embeds `int(choice.split(' ')[1]) - 1` (6_Export_Resume.py lines 76 and 123). -/
def versionIndex (choice : String) : Except PyError Int :=
  match (pySplit choice " ").get? 1 with
  | none => .error .indexError
  | some s =>
    match pyToInt (pyStrip s) with
    | some n => .ok (n - 1)
    | none => .error .valueError

/-- Embeds `choose_statement` (6_Export_Resume.py lines 58-79): without a stored
choice, or with index `-1` (Version 0), the original statement; otherwise
the selected alternative.  The stored choice must be a string for
`choice.split(' ')` to succeed — on the integer that 3_Statement.py
actually stores, Python raises `AttributeError`. -/
def choose_statement (st : ExportState) : Except PyError String :=
  match st.statement_choice with
  | none => .ok st.statement
  | some (.str choice) =>
    (match versionIndex choice with
     | .error e => .error e
     | .ok index =>
       if index = -1 then .ok st.statement
       else pyListGet st.new_statements index)
  | some _ => .error .attributeError

/-- Embeds `choose_description` (6_Export_Resume.py lines 102-126): unless both the
choice and the alternatives are stored, or when the index is `-1`
(Version 0), the project's original description; otherwise the selected
alternative, stripped.  A stored non-string choice raises `AttributeError`
at `choice.split(' ')`. -/
def choose_description (st : ExportState) : Except PyError String :=
  match st.description_choice, st.new_descriptions with
  | some choice, some descs =>
    (match choice with
     | .str s =>
       (match versionIndex s with
        | .error e => .error e
        | .ok index =>
          if index = -1 then .ok st.projectDescription
          else
            match pyListGet descs index with
            | .error e => .error e
            | .ok d => .ok (pyStrip d))
     | _ => .error .attributeError)
  | _, _ => .ok st.projectDescription

/-- Selecting a statement version on the statement page
(3_Statement.py lines 57 and 87) stores the selectbox's integer option
into `statement_choice` and nothing else. -/
def store_statement_choice (n : Int) (st : ExportState) : ExportState :=
  { st with statement_choice := some (.num n) }

/-- Selecting a description version on the experiences page
(5_Experiences.py lines 144-163) stores the selectbox's string option
(`Version N`) into the description choice and nothing else. -/
def store_description_choice (v : String) (st : ExportState) : ExportState :=
  { st with description_choice := some (.str v) }

/-- The project of the end-to-end example resume. -/
def projectC1 : Dict :=
  [("title", .str "X"), ("description", .str "Built X"),
   ("contributions", .list [.str "Did A", .str "Did B"])]

/-- The experience of the end-to-end example resume. -/
def expC1 : Dict :=
  [("title", .str "Dev"), ("company", .str "Acme"),
   ("start", .obj [("year", .num 2020), ("month", .num 1)]),
   ("end", .obj [("year", .num 2022), ("month", .num 6)]),
   ("projects", .list [.obj projectC1])]

/-- The end-to-end example resume JSON of the claim, decoded. -/
def resumeC1 : Dict :=
  [("statement", .str "Engineer."),
   ("skills", .obj [("tech", .list [.str "Python", .str "SQL"])]),
   ("experiences", .list [.obj expC1])]

/-- The date range the source format string produces for the example:
`"Jan 2020 -"` followed by 19 spaces and `"Jun 2022"`. -/
def dateRangeC1 : String := "Jan 2020 -" ++ ⟨List.replicate 19 ' '⟩ ++ "Jun 2022"

/-!  General lemmas about the field resolver, shared by several claims. -/

theorem search_field_nil (obj : Dict) : search_field obj [] = .null := rfl

theorem search_field_cons_of_absent (obj : Dict) (c : String) (cs : List String)
    (h : dictLookup obj c = none) :
    search_field obj (c :: cs) = search_field obj cs := by
  simp [search_field, List.find?_cons, h]

theorem search_field_cons_of_present (obj : Dict) (c : String) (cs : List String)
    (v : JsonVal) (h : dictLookup obj c = some v) :
    search_field obj (c :: cs) = v := by
  simp [search_field, List.find?_cons, h]

theorem search_field_all_absent (obj : Dict) (cs : List String)
    (h : ∀ c ∈ cs, dictLookup obj c = none) :
    search_field obj cs = .null := by
  induction cs with
  | nil => rfl
  | cons c cs ih =>
    rw [search_field_cons_of_absent obj c cs (h c (List.mem_cons_self c cs))]
    exact ih (fun x hx => h x (List.mem_cons_of_mem c hx))

/-- Claim C2 (counterexample): the resolver performs no case/separator
variant expansion — on `{"Core_Competencies": ["x"]}` with candidates
`["skills", "Core Competencies"]` it returns `None`, not `["x"]`. -/
theorem search_field_no_variant_expansion :
    search_field [("Core_Competencies", .list [.str "x"])] ["skills", "Core Competencies"]
      = .null ∧
    JsonVal.null ≠ JsonVal.list [.str "x"] :=
  ⟨rfl, fun h => JsonVal.noConfusion h⟩

/-- Claim C2 (amended): `search_field` checks each candidate literally, in
priority order, with no variant expansion: the empty candidate list resolves
to `None`, an absent candidate is skipped, and the first candidate that is a
key of the mapping yields its value; when no candidate is a key the result
is the distinguished absent marker `None` rather than a default value. -/
theorem search_field_literal_priority (obj : Dict) (c : String) (cs : List String)
    (v : JsonVal) :
    (search_field obj [] = .null) ∧
    (dictLookup obj c = none → search_field obj (c :: cs) = search_field obj cs) ∧
    (dictLookup obj c = some v → search_field obj (c :: cs) = v) ∧
    ((∀ x ∈ cs, dictLookup obj x = none) → search_field obj cs = .null) :=
  ⟨search_field_nil obj,
   search_field_cons_of_absent obj c cs,
   search_field_cons_of_present obj c cs v,
   search_field_all_absent obj cs⟩

/-- Claim C2 (witness): the resolver at work on a concrete mapping, matching
the repository's own `test_parser.py` case — candidates `["d", "b", "e",
"a"]` over `{"a": 1, "b": 2, "c": 3}` resolve to `2`. -/
theorem search_field_literal_priority_witness :
    search_field [("a", .num 1), ("b", .num 2), ("c", .num 3)] ["d", "b", "e", "a"]
      = .num 2 := by
  have h1 := (search_field_literal_priority
    [("a", .num 1), ("b", .num 2), ("c", .num 3)] "d" ["b", "e", "a"] (.num 2)).2.1 rfl
  have h2 := (search_field_literal_priority
    [("a", .num 1), ("b", .num 2), ("c", .num 3)] "b" ["e", "a"] (.num 2)).2.2.1 rfl
  exact h1.trans h2

/-- Claim C10: an experience mapping with none of the keys `start`, `dates`,
`date`, `date_range` and with `start_date` or `end_date` missing makes
`parse_experience` raise a `TypeError` at `start_date + ' - ' + end_date`
(the resolver's `None` is concatenated with a string), before any LLM call —
normalization is not total over arbitrary raw experiences. -/
theorem parse_experience_missing_dates_raises (oracle : LLMOracle)
    (gen : Nat → String) (c : Nat) (exp_in : Dict)
    (hstart : dictLookup exp_in "start" = none)
    (hdates : dictLookup exp_in "dates" = none)
    (hdate : dictLookup exp_in "date" = none)
    (hrange : dictLookup exp_in "date_range" = none)
    (hends : dictLookup exp_in "start_date" = none ∨ dictLookup exp_in "end_date" = none) :
    (parse_experience oracle gen c exp_in).result = .error PyError.typeError ∧
    (parse_experience oracle gen c exp_in).calls = [] := by
  have hdr : search_field exp_in ["dates", "date", "date_range"] = .null := by
    rw [search_field_cons_of_absent _ _ _ hdates,
        search_field_cons_of_absent _ _ _ hdate,
        search_field_cons_of_absent _ _ _ hrange, search_field_nil]
  rcases hends with hsd | hed
  · have hs : search_field exp_in ["start_date"] = .null := by
      rw [search_field_cons_of_absent _ _ _ hsd, search_field_nil]
    simp [parse_experience, hstart, hdr, hs, isNull]
  · have he : search_field exp_in ["end_date"] = .null := by
      rw [search_field_cons_of_absent _ _ _ hed, search_field_nil]
    cases hs : search_field exp_in ["start_date"] with
    | str a => simp [parse_experience, hstart, hdr, hs, he, isNull]
    | num n => simp [parse_experience, hstart, hdr, hs, isNull]
    | list l => simp [parse_experience, hstart, hdr, hs, isNull]
    | obj o => simp [parse_experience, hstart, hdr, hs, isNull]
    | null => simp [parse_experience, hstart, hdr, hs, isNull]

/-- Claim C10 (witness): the error branch is reachable — the concrete
experience `{"title": "T"}` makes `parse_experience` raise. -/
theorem parse_experience_missing_dates_raises_witness :
    (parse_experience ⟨fun _ => none, fun _ => none, fun _ => none⟩
        (fun n => "u" ++ Nat.repr n) 0 [("title", .str "T")]).result
      = .error PyError.typeError :=
  (parse_experience_missing_dates_raises _ _ 0 [("title", .str "T")]
    rfl rfl rfl rfl (Or.inl rfl)).1

theorem retryIter_calls (tries backoff maxDelay : Nat)
    (h : retryGuard tries = true) :
    ∀ (n : Nat) (s : RetryState),
      (retryIter tries backoff maxDelay s n).calls = s.calls + n := by
  intro n
  induction n with
  | zero => intro s; simp [retryIter]
  | succ n ih =>
    intro s
    have h2 := ih (retryStep backoff maxDelay s)
    simp only [retryIter, if_pos h]
    rw [h2]
    simp [retryStep]
    omega

theorem retryIter_succ_comm (tries backoff maxDelay : Nat)
    (h : retryGuard tries = true) :
    ∀ (n : Nat) (s : RetryState),
      retryIter tries backoff maxDelay s (n + 1) =
        retryStep backoff maxDelay (retryIter tries backoff maxDelay s n) := by
  intro n
  induction n with
  | zero => intro s; simp [retryIter, h]
  | succ n ih =>
    intro s
    have h2 := ih (retryStep backoff maxDelay s)
    simp only [retryIter, if_pos h] at h2 ⊢
    exact h2

theorem retryIter_delay (n : Nat) :
    (retryIter 5 2 120 (retryInit 5 1) n).mDelay = min (2 ^ n) 120 := by
  induction n with
  | zero => simp [retryIter, retryInit]
  | succ n ih =>
    rw [retryIter_succ_comm 5 2 120 rfl n (retryInit 5 1)]
    simp only [retryStep, ih]
    rcases le_or_lt (2 ^ n) 120 with hle | hlt
    · rw [min_eq_left hle, pow_succ]
    · rw [min_eq_right hlt.le, min_eq_right, min_eq_right]
      · calc (120 : Nat) ≤ 2 ^ n := hlt.le
          _ ≤ 2 ^ (n + 1) := Nat.pow_le_pow_right (by norm_num) (Nat.le_succ n)
      · omega

/-- Claim C3: with the default parameters applied to `call_openai_api`
(`tries=5, delay=1, backoff=2, max_delay=120`), against a wrapped function
that raises the retried timeout on every invocation, the loop condition
`while tries > 1` never becomes false (it reads the unchanging parameter,
not the decremented `num_tries`), so after `n` iterations the wrapped
function has been invoked `n` times — in particular more than 5 — while the
sleeps do follow the `min(2^n, 120)` capped backoff.  The wrapper loops
indefinitely instead of stopping after at most 5 invocations. -/
theorem retry_loop_never_exits (n : Nat) :
    retryGuard 5 = true ∧
    (retryIter 5 2 120 (retryInit 5 1) n).calls = n ∧
    (retryIter 5 2 120 (retryInit 5 1) n).mDelay = min (2 ^ n) 120 ∧
    (retryIter 5 2 120 (retryInit 5 1) 6).calls = 6 :=
  ⟨rfl,
   by rw [retryIter_calls 5 2 120 rfl n (retryInit 5 1)]; simp [retryInit],
   retryIter_delay n,
   by rw [retryIter_calls 5 2 120 rfl 6 (retryInit 5 1)]; simp [retryInit]⟩

/-- Claim C7: the per-experience pass of `parse_expereinces` leaves every
experience that already carries a `uuid` key untouched (deep copy only), so
a pass over a list of already-normalized experiences returns the list
unchanged, issues no LLM call and draws no fresh uuid — and hence repeated
passes preserve every existing uuid and all other fields; a uuid is drawn
only on an experience's first normalization, where it is appended after the
parsed fields. -/
theorem parse_expereinces_preserves_normalized (oracle : LLMOracle)
    (gen : Nat → String) (c : Nat) (exps : List JsonVal) (o d : Dict)
    (h : ∀ e ∈ exps, ∃ w, e = JsonVal.obj w ∧ (dictLookup w "uuid").isSome = true)
    (hno : dictLookup o "uuid" = none)
    (hok : (parse_experience oracle gen c o).result = .ok d) :
    parse_expereinces oracle gen c exps = ⟨.ok exps, [], c⟩ ∧
    parse_expereinces oracle gen c [.obj o] =
      ⟨.ok [.obj (d ++ [("uuid", .str (gen (parse_experience oracle gen c o).next))])],
       (parse_experience oracle gen c o).calls,
       (parse_experience oracle gen c o).next + 1⟩ := by
  constructor
  · induction exps with
    | nil => rfl
    | cons e rest ih =>
      obtain ⟨w, rfl, hw⟩ := h e (List.mem_cons_self e rest)
      have hr := ih (fun x hx => h x (List.mem_cons_of_mem _ hx))
      simp [parse_expereinces, hw, hr, Except.map]
  · have hn : (dictLookup o "uuid").isSome = false := by rw [hno]; rfl
    simp [parse_expereinces, hn, hok, Except.map]

/-- Claim C7 (witness): a concrete already-normalized experience passes
through unchanged while a concrete fresh one gets a uuid appended. -/
theorem parse_expereinces_preserves_normalized_witness :
    parse_expereinces ⟨fun _ => some "T2", fun _ => some "D2", fun _ => some "R"⟩
        (fun n => "u" ++ Nat.repr n) 0
        [.obj [("uuid", .str "keep"), ("title", .str "Dev")]] =
      ⟨.ok [.obj [("uuid", .str "keep"), ("title", .str "Dev")]], [], 0⟩ :=
  (parse_expereinces_preserves_normalized
    ⟨fun _ => some "T2", fun _ => some "D2", fun _ => some "R"⟩ (fun n => "u" ++ Nat.repr n) 0
    [.obj [("uuid", .str "keep"), ("title", .str "Dev")]]
    [("title", .str "T"), ("date_range", .str "2020")]
    [("title", .str "T"), ("company", .null), ("date_range", .str "2020"),
     ("projects", .list [.obj [("uuid", .str "u0"), ("title", .str "T2"),
                               ("description", .str "D2"), ("contributions", .list [.str "R"])]])]
    (by
      intro e he
      simp only [List.mem_singleton] at he
      exact ⟨[("uuid", .str "keep"), ("title", .str "Dev")], he, rfl⟩)
    rfl rfl).1

end AIJobOptimizer

namespace AIJobOptimizer

theorem versionIndex_two : versionIndex "Version 2" = .ok 1 := rfl

theorem versionIndex_zero : versionIndex "Version 0" = .ok (-1) := rfl

/-- Claim C9: evaluating the export page's readers on the session state the
program actually produces.  The statement page stores the selection as an
integer, on which `choose_statement`'s `choice.split(' ')` raises
`AttributeError` — selecting version 2 and even re-selecting version 0
crashes the statement read instead of restoring the original (the intent
documented in `choose_statement`'s docstring and implemented int-based in
`optimizer/core/resume.py`).  The per-project description choices are
stored as `Version N` strings, and there the claimed round-trip does hold:
selecting Version 2 returns the stored alternative (stripped), selecting
Version 0 afterwards returns the original description byte-for-byte, and no
selection modifies the alternatives lists. -/
theorem choose_statement_int_choice_crashes (st : ExportState)
    (l : List String) (b : String)
    (hl : st.new_descriptions = some l)
    (hb : l[1]? = some b) :
    choose_statement (store_statement_choice 2 st) = .error PyError.attributeError ∧
    choose_statement
      (store_statement_choice 0 (store_statement_choice 2 st))
        = .error PyError.attributeError ∧
    (store_statement_choice 0
      (store_statement_choice 2 st)).new_statements = st.new_statements ∧
    choose_description (store_description_choice "Version 2" st) = .ok (pyStrip b) ∧
    choose_description
      (store_description_choice "Version 0"
        (store_description_choice "Version 2" st)) = .ok st.projectDescription ∧
    (store_description_choice "Version 0"
      (store_description_choice "Version 2" st)).new_descriptions = st.new_descriptions := by
  refine ⟨rfl, rfl, rfl, ?_, ?_, rfl⟩
  · simp only [choose_description, store_description_choice, hl, versionIndex_two]
    simp [pyListGet, hb]
  · simp only [choose_description, store_description_choice, hl, versionIndex_zero]
    rfl

/-- Claim C9 (witness): the crash and the description round-trip on a
concrete session state. -/
theorem choose_statement_int_choice_crashes_witness :
    choose_statement
      (store_statement_choice 0
        (store_statement_choice 2
          ⟨"orig stmt", ["s1", "s2"], none, "orig desc", some ["d1", " d2 "], none⟩))
      = .error PyError.attributeError ∧
    choose_description
      (store_description_choice "Version 2"
        ⟨"orig stmt", ["s1", "s2"], none, "orig desc", some ["d1", " d2 "], none⟩)
      = .ok "d2" ∧
    choose_description
      (store_description_choice "Version 0"
        (store_description_choice "Version 2"
          ⟨"orig stmt", ["s1", "s2"], none, "orig desc", some ["d1", " d2 "], none⟩))
      = .ok "orig desc" :=
  have h := choose_statement_int_choice_crashes
    ⟨"orig stmt", ["s1", "s2"], none, "orig desc", some ["d1", " d2 "], none⟩
    ["d1", " d2 "] " d2 " rfl rfl
  ⟨h.2.1, h.2.2.2.1, h.2.2.2.2.1⟩

end AIJobOptimizer

namespace AIJobOptimizer

/-- Claim C5 (counterexample): on the claim's own exemplar
`{"title": "Alpha", "description": "Alpha"}` the code does not issue exactly
two LLM fallback queries: since the mapping also lacks a contributions key,
a third fallback query (`query_project_contributions`) follows the title and
description queries. -/
theorem parse_project_exemplar_three_queries :
    (parse_project ⟨fun _ => some "New title", fun _ => some "New desc",
        fun _ => some "C1\nC2"⟩
        (fun n => "u" ++ Nat.repr n) 0
        [("title", .str "Alpha"), ("description", .str "Alpha")]).calls =
      [LLMCall.queryProjectTitle, LLMCall.queryProjectDescription,
       LLMCall.queryProjectContributions] ∧
    [LLMCall.queryProjectTitle, LLMCall.queryProjectDescription,
     LLMCall.queryProjectContributions] ≠
      [LLMCall.queryProjectTitle, LLMCall.queryProjectDescription] :=
  ⟨rfl, by decide⟩

/-- Claim C5 (amended): when the resolved description is absent or exactly
equals the resolved title, `parse_project` issues the title query first and
the description query second, each exactly once, accepts both results
unconditionally (no retry) and uses them — through the clean-up chains — as
the project's title and description; a contributions query is appended to
the trace exactly when the mapping has no contributions key (so the
exemplar `{"title": "Alpha", "description": "Alpha"}` issues three queries
in total, not two).  When the resolved description is present and differs
from the resolved title, neither the title query nor the description query
is ever issued. -/
theorem parse_project_fallback_policy (oracle : LLMOracle) (gen : Nat → String)
    (c : Nat) (inp : Dict) :
    ((isNull (search_field inp ["project_description", "project description", "description"]) ||
      pyEq (search_field inp ["project_description", "project description", "description"])
        (search_field inp ["project", "description", "title"])) = true →
      (∀ t d,
        oracle.titleReply (search_field inp ["project", "description", "title"]) = some t →
        oracle.descReply (.str t) = some d →
        (parse_project oracle gen c inp).calls =
          [LLMCall.queryProjectTitle, LLMCall.queryProjectDescription] ++
            (if isNull (search_field inp ["contributions", "key_contributions"])
             then [LLMCall.queryProjectContributions] else []) ∧
        (parse_project oracle gen c inp).result =
          .ok [("uuid", .str (gen c)), ("title", .str (clean_title t)),
               ("description", .str (clean_description d t)),
               ("contributions",
                 if isNull (search_field inp ["contributions", "key_contributions"])
                 then contributionsOfReply (oracle.contribReply (clean_title t))
                 else search_field inp ["contributions", "key_contributions"])])) ∧
    ((isNull (search_field inp ["project_description", "project description", "description"]) ||
      pyEq (search_field inp ["project_description", "project description", "description"])
        (search_field inp ["project", "description", "title"])) = false →
      LLMCall.queryProjectTitle ∉ (parse_project oracle gen c inp).calls ∧
      LLMCall.queryProjectDescription ∉ (parse_project oracle gen c inp).calls) := by
  constructor
  · intro hfb t d ht hd
    cases hk : isNull (search_field inp ["contributions", "key_contributions"]) with
    | true =>
      constructor
      · simp [parse_project, hfb, ht, hd, hk]
      · simp [parse_project, hfb, ht, hd, hk]
    | false =>
      constructor
      · simp [parse_project, hfb, ht, hd, hk]
      · simp [parse_project, hfb, ht, hd, hk]
  · intro hfb
    simp only [parse_project, hfb, if_false, Bool.false_eq_true]
    cases hdesc : search_field inp ["project_description", "project description", "description"] with
    | str sd =>
      cases htit : search_field inp ["project", "description", "title"] with
      | str st' =>
        cases hk : isNull (search_field inp ["contributions", "key_contributions"]) with
        | true => constructor <;> simp [hk]
        | false => constructor <;> simp [hk]
      | num n => constructor <;> simp
      | list l => constructor <;> simp
      | obj o => constructor <;> simp
      | null => constructor <;> simp
    | num n => constructor <;> simp
    | list l => constructor <;> simp
    | obj o => constructor <;> simp
    | null => constructor <;> simp

/-- Claim C5 (witness): on the exemplar `{"title": "Alpha", "description":
"Alpha"}` the trace is title query, description query, then the
contributions query (the key is missing), and the replies are used; with a
contributions key present the trace is exactly the two queries; on
`{"project": "Gamma", "description": "Beta", "contributions": ["k"]}`
(resolved description present and different from the resolved title)
neither the title nor the description query is issued. -/
theorem parse_project_fallback_policy_witness :
    (parse_project ⟨fun _ => some "New title", fun _ => some "New desc",
        fun _ => some "C1\nC2"⟩
        (fun n => "u" ++ Nat.repr n) 0
        [("title", .str "Alpha"), ("description", .str "Alpha")]).calls =
      [LLMCall.queryProjectTitle, LLMCall.queryProjectDescription,
       LLMCall.queryProjectContributions] ∧
    (parse_project ⟨fun _ => some "New title", fun _ => some "New desc",
        fun _ => some "C1\nC2"⟩
        (fun n => "u" ++ Nat.repr n) 0
        [("title", .str "Alpha"), ("description", .str "Alpha")]).result =
      .ok [("uuid", .str "u0"), ("title", .str "New title"),
           ("description", .str "New desc"),
           ("contributions", .list [.str "C1", .str "C2"])] ∧
    (parse_project ⟨fun _ => some "New title", fun _ => some "New desc",
        fun _ => some "C1\nC2"⟩
        (fun n => "u" ++ Nat.repr n) 0
        [("title", .str "Alpha"), ("description", .str "Alpha"),
         ("contributions", .list [.str "k"])]).calls =
      [LLMCall.queryProjectTitle, LLMCall.queryProjectDescription] ∧
    LLMCall.queryProjectTitle ∉
      (parse_project ⟨fun _ => some "New title", fun _ => some "New desc",
          fun _ => some "C1\nC2"⟩
          (fun n => "u" ++ Nat.repr n) 0
          [("project", .str "Gamma"), ("description", .str "Beta"),
           ("contributions", .list [.str "k"])]).calls := by
  have h1 := parse_project_fallback_policy
    ⟨fun _ => some "New title", fun _ => some "New desc", fun _ => some "C1\nC2"⟩
    (fun n => "u" ++ Nat.repr n) 0
    [("title", .str "Alpha"), ("description", .str "Alpha")]
  have h2 := parse_project_fallback_policy
    ⟨fun _ => some "New title", fun _ => some "New desc", fun _ => some "C1\nC2"⟩
    (fun n => "u" ++ Nat.repr n) 0
    [("title", .str "Alpha"), ("description", .str "Alpha"),
     ("contributions", .list [.str "k"])]
  have h3 := parse_project_fallback_policy
    ⟨fun _ => some "New title", fun _ => some "New desc", fun _ => some "C1\nC2"⟩
    (fun n => "u" ++ Nat.repr n) 0
    [("project", .str "Gamma"), ("description", .str "Beta"),
     ("contributions", .list [.str "k"])]
  exact ⟨(h1.1 rfl "New title" "New desc" rfl rfl).1,
         (h1.1 rfl "New title" "New desc" rfl rfl).2,
         (h2.1 rfl "New title" "New desc" rfl rfl).1,
         (h3.2 (by rfl)).1⟩

end AIJobOptimizer

namespace AIJobOptimizer

/-- Claim C4 (counterexample): re-normalizing the already-normalized project
`{"uuid": "orig", "title": "A", "description": "B", "contributions":
["c1"]}` does not preserve uuid, title or description: `parse_project`
always draws a fresh uuid, and its title resolver prefers the `description`
key, so the resolved title equals the description and the LLM fallback
replaces both fields. -/
theorem parse_project_renormalize_counterexample :
    (parse_project ⟨fun _ => some "T", fun _ => some "D", fun _ => none⟩
        (fun _ => "fresh") 0
        [("uuid", .str "orig"), ("title", .str "A"), ("description", .str "B"),
         ("contributions", .list [.str "c1"])]).result =
      .ok [("uuid", .str "fresh"), ("title", .str "T"), ("description", .str "D"),
           ("contributions", .list [.str "c1"])] ∧
    "fresh" ≠ "orig" ∧ "T" ≠ "A" ∧ "D" ≠ "B" :=
  ⟨rfl, by decide, by decide, by decide⟩

/-- Claim C4 (amended): for every already-normalized project mapping
(`uuid` key present, title and description non-empty and different),
running `parse_project` a second time discards the stored uuid and returns
the freshly drawn one, resolves both title and description to the stored
description (the title candidate list checks `description` before `title`),
hence issues the two LLM fallback queries and returns their (cleaned)
results as title and description; only the contributions survive. -/
theorem parse_project_renormalize_fresh (oracle : LLMOracle) (gen : Nat → String)
    (c : Nat) (u a b : String) (cl : List JsonVal) (t d : String)
    (ht : oracle.titleReply (.str b) = some t)
    (hd : oracle.descReply (.str t) = some d) :
    parse_project oracle gen c
        [("uuid", .str u), ("title", .str a), ("description", .str b),
         ("contributions", .list cl)] =
      ⟨.ok [("uuid", .str (gen c)), ("title", .str (clean_title t)),
            ("description", .str (clean_description d t)),
            ("contributions", .list cl)],
       [LLMCall.queryProjectTitle, LLMCall.queryProjectDescription], c + 1⟩ := by
  simp [parse_project, search_field, dictLookup, isNull, pyEq, ht, hd]

/-- Claim C4 (witness): the amended behaviour at a concrete input. -/
theorem parse_project_renormalize_fresh_witness :
    parse_project ⟨fun _ => some "T", fun _ => some "D", fun _ => none⟩
        (fun n => "u" ++ Nat.repr n) 3
        [("uuid", .str "orig"), ("title", .str "A"), ("description", .str "B"),
         ("contributions", .list [.str "c1"])] =
      ⟨.ok [("uuid", .str "u3"), ("title", .str "T"), ("description", .str "D"),
            ("contributions", .list [.str "c1"])],
       [LLMCall.queryProjectTitle, LLMCall.queryProjectDescription], 4⟩ :=
  parse_project_renormalize_fresh ⟨fun _ => some "T", fun _ => some "D", fun _ => none⟩
    (fun n => "u" ++ Nat.repr n) 3 "orig" "A" "B" [.str "c1"] "T" "D" rfl rfl

end AIJobOptimizer

namespace AIJobOptimizer

/-- Claim C8 (counterexample): on `{"title": "Alpha", "description":
"Alpha"}` with LLM replies from which nothing can be extracted (`None`
extraction results), `parse_project` does crash instead of returning a
Project with empty fields — the `None` description reaches
`.replace(...)` and raises `AttributeError` — although it indeed does not
retry (exactly one title query and one description query were issued). -/
theorem parse_project_none_reply_counterexample :
    (parse_project ⟨fun _ => none, fun _ => none, fun _ => none⟩
        (fun n => "u" ++ Nat.repr n) 0
        [("title", .str "Alpha"), ("description", .str "Alpha"),
         ("contributions", .list [.str "k"])]).result =
      .error PyError.attributeError ∧
    (parse_project ⟨fun _ => none, fun _ => none, fun _ => none⟩
        (fun n => "u" ++ Nat.repr n) 0
        [("title", .str "Alpha"), ("description", .str "Alpha"),
         ("contributions", .list [.str "k"])]).calls =
      [LLMCall.queryProjectTitle, LLMCall.queryProjectDescription] :=
  ⟨rfl, rfl⟩

/-- Claim C8 (amended): no LLM fallback query is ever retried, and a `None`
reply is tolerated only for contributions — there `parse_project` still
returns a Project with an empty contributions list after a single query.
A `None` extraction for the description query (whatever the title query
returned) makes `parse_project` raise `AttributeError`, and a `None`
extraction for the title query combined with a usable description reply
makes it raise `TypeError`; in each case the two queries have been issued
exactly once. -/
theorem parse_project_none_reply_policy (oracle : LLMOracle) (gen : Nat → String)
    (c : Nat) (inp : Dict) (ds ts : String)
    (hd0 : search_field inp ["project_description", "project description", "description"]
            = .str ds)
    (ht0 : search_field inp ["project", "description", "title"] = .str ts) :
    ((isNull (search_field inp ["project_description", "project description", "description"]) ||
      pyEq (search_field inp ["project_description", "project description", "description"])
        (search_field inp ["project", "description", "title"])) = false →
      search_field inp ["contributions", "key_contributions"] = .null →
      oracle.contribReply (clean_title ts) = none →
      (parse_project oracle gen c inp).result =
        .ok [("uuid", .str (gen c)), ("title", .str (clean_title ts)),
             ("description", .str (clean_description ds ts)),
             ("contributions", .list [])] ∧
      (parse_project oracle gen c inp).calls = [LLMCall.queryProjectContributions]) ∧
    ((isNull (search_field inp ["project_description", "project description", "description"]) ||
      pyEq (search_field inp ["project_description", "project description", "description"])
        (search_field inp ["project", "description", "title"])) = true →
      ((∀ t, oracle.titleReply (search_field inp ["project", "description", "title"]) = some t →
          oracle.descReply (.str t) = none →
          (parse_project oracle gen c inp).result = .error PyError.attributeError ∧
          (parse_project oracle gen c inp).calls =
            [LLMCall.queryProjectTitle, LLMCall.queryProjectDescription]) ∧
       (oracle.titleReply (search_field inp ["project", "description", "title"]) = none →
          oracle.descReply .null = none →
          (parse_project oracle gen c inp).result = .error PyError.attributeError ∧
          (parse_project oracle gen c inp).calls =
            [LLMCall.queryProjectTitle, LLMCall.queryProjectDescription]) ∧
       (∀ d, oracle.titleReply (search_field inp ["project", "description", "title"]) = none →
          oracle.descReply .null = some d →
          (parse_project oracle gen c inp).result = .error PyError.typeError ∧
          (parse_project oracle gen c inp).calls =
            [LLMCall.queryProjectTitle, LLMCall.queryProjectDescription]))) := by
  constructor
  · intro hfb hck hcr
    rw [hd0, ht0] at hfb
    simp only [isNull, Bool.false_or] at hfb
    constructor
    · simp [parse_project, hfb, hd0, ht0, hck, hcr, isNull, contributionsOfReply]
    · simp [parse_project, hfb, hd0, ht0, hck, hcr, isNull, contributionsOfReply]
  · intro hfb
    refine ⟨?_, ?_, ?_⟩
    · intro t ht hdnone
      constructor
      · simp [parse_project, hfb, ht, hdnone]
      · simp [parse_project, hfb, ht, hdnone]
    · intro ht hdnone
      constructor
      · simp [parse_project, hfb, ht, hdnone]
      · simp [parse_project, hfb, ht, hdnone]
    · intro d ht hdsome
      constructor
      · simp [parse_project, hfb, ht, hdsome]
      · simp [parse_project, hfb, ht, hdsome]

/-- Claim C8 (witness): the amended behaviour at concrete inputs — a `None`
contributions reply yields an empty list after one query; a `None`
title/description reply pair crashes with `AttributeError` after the two
queries. -/
theorem parse_project_none_reply_policy_witness :
    ((parse_project ⟨fun _ => none, fun _ => none, fun _ => none⟩
        (fun n => "u" ++ Nat.repr n) 0
        [("project", .str "Gamma"), ("description", .str "Beta")]).result =
      .ok [("uuid", .str "u0"), ("title", .str "Gamma"),
           ("description", .str "Beta"), ("contributions", .list [])] ∧
     (parse_project ⟨fun _ => none, fun _ => none, fun _ => none⟩
        (fun n => "u" ++ Nat.repr n) 0
        [("project", .str "Gamma"), ("description", .str "Beta")]).calls =
      [LLMCall.queryProjectContributions]) ∧
    ((parse_project ⟨fun _ => none, fun _ => none, fun _ => none⟩
        (fun n => "u" ++ Nat.repr n) 0
        [("title", .str "Alpha"), ("description", .str "Alpha")]).result =
      .error PyError.attributeError ∧
     (parse_project ⟨fun _ => none, fun _ => none, fun _ => none⟩
        (fun n => "u" ++ Nat.repr n) 0
        [("title", .str "Alpha"), ("description", .str "Alpha")]).calls =
      [LLMCall.queryProjectTitle, LLMCall.queryProjectDescription]) :=
  have h1 := parse_project_none_reply_policy
    ⟨fun _ => none, fun _ => none, fun _ => none⟩ (fun n => "u" ++ Nat.repr n) 0
    [("project", .str "Gamma"), ("description", .str "Beta")] "Beta" "Gamma" rfl rfl
  have h2 := parse_project_none_reply_policy
    ⟨fun _ => none, fun _ => none, fun _ => none⟩ (fun n => "u" ++ Nat.repr n) 0
    [("title", .str "Alpha"), ("description", .str "Alpha")] "Alpha" "Alpha" rfl rfl
  ⟨h1.1 (by rfl) rfl rfl, (h2.2 (by rfl)).2.1 rfl rfl⟩

end AIJobOptimizer

namespace AIJobOptimizer

/-- Claim C6 (counterexample): `parse_api_json` on `{"skills":
"Python; Go, Rust"}` stores the skills value as the raw string — no
delimiter splitting (nor mapping flattening) happens on the candidate
resolution path, contradicting the claimed `["Python", "Go", "Rust"]`. -/
theorem parse_api_json_skills_counterexample :
    parse_api_json [("skills", .str "Python; Go, Rust")] =
      .ok ⟨.str "", .str "Python; Go, Rust", .str "", 16⟩ ∧
    JsonVal.str "Python; Go, Rust" ≠
      JsonVal.list [.str "Python", .str "Go", .str "Rust"] :=
  ⟨rfl, fun h => JsonVal.noConfusion h⟩

/-- Claim C6 (amended): the skills field is indeed resolved via the
candidates `[skills, Core Competencies, core_competencies, Competencies,
competencies]` and defaults to the empty sequence when no candidate
matches, but the resolved value is stored unmodified: a mapping is not
flattened to its values and a delimiter-joined string is not split — e.g.
`{"skills": "Python; Go, Rust"}` keeps the raw string (the value-flattening
exists only on the direct-JSON path of `parse_json`, and no code path
splits skill strings on `;`, `,` or `|`). -/
theorem get_skills_value_unmodified (d : Dict) (v : JsonVal) (rest : Dict)
    (hv : isNull v = false)
    (hnone : search_field d
      ["skills", "Core Competencies", "core_competencies", "Competencies",
       "competencies"] = .null) :
    get_skills (("skills", v) :: rest) = v ∧
    get_skills d = .list [] ∧
    parse_api_json [("skills", .str "Python; Go, Rust")] =
      .ok ⟨.str "", .str "Python; Go, Rust", .str "", 16⟩ := by
  refine ⟨?_, ?_, rfl⟩
  · have h : dictLookup (("skills", v) :: rest) "skills" = some v := by
      simp [dictLookup]
    rw [get_skills, search_field_cons_of_present _ _ _ v h, hv]
    rfl
  · rw [get_skills, hnone]
    rfl

/-- Claim C6 (witness): the amended behaviour at concrete inputs — a
mapping value and a delimiter string are both returned as they are, and a
resume without any skills candidate resolves to the empty list. -/
theorem get_skills_value_unmodified_witness :
    get_skills [("skills", .obj [("tech", .list [.str "x"])])]
      = .obj [("tech", .list [.str "x"])] ∧
    get_skills [("skills", .str "Python; Go, Rust")] = .str "Python; Go, Rust" ∧
    get_skills [("statement", .str "s")] = .list [] :=
  have h1 := get_skills_value_unmodified [("statement", .str "s")]
    (.obj [("tech", .list [.str "x"])]) [] rfl rfl
  have h2 := get_skills_value_unmodified [("statement", .str "s")]
    (.str "Python; Go, Rust") [] rfl rfl
  ⟨h1.1, h2.1, h1.2.1⟩

end AIJobOptimizer

namespace AIJobOptimizer


theorem get_date_range_expC1 : get_date_range expC1 = .ok dateRangeC1 := rfl

/-- Claim C1 (counterexample): the end-to-end example parse is not free of
LLM fallback calls — the project's title resolver reads the `description`
key first, so resolved title and description are both `"Built X"` and the
title and description queries are issued (shown here with one concrete
oracle; the amended theorem shows it for every oracle). -/
theorem parse_resume_direct_example_calls_counterexample :
    (parse_resume_direct ⟨fun _ => some "X", fun _ => some "Built X", fun _ => none⟩
        (fun n => "u" ++ Nat.repr n) 0 resumeC1).calls =
      [LLMCall.queryProjectTitle, LLMCall.queryProjectDescription] ∧
    [LLMCall.queryProjectTitle, LLMCall.queryProjectDescription] ≠ ([] : List LLMCall) :=
  ⟨rfl, by decide⟩

/-- Claim C1 (amended): the end-to-end example parse produces a Document
with `skills == ["Python", "SQL"]`, `experiences[0].date_range` equal to
`"Jan 2020 -"` followed by 19 spaces and `"Jun 2022"`, and
`experiences[0].projects[0].contributions == ["Did A", "Did B"]`, and
issues no contributions and no `analyse_resume` call — but it always issues
exactly two LLM fallback calls, `query_project_title` then
`query_project_description` (whose cleaned replies become the project's
title and description), because the title resolver reads `description`
before `title`, making the resolved title equal the resolved description. -/
theorem parse_resume_direct_example (oracle : LLMOracle) (gen : Nat → String)
    (c : Nat) (t d : String)
    (ht : oracle.titleReply (.str "Built X") = some t)
    (hd : oracle.descReply (.str t) = some d) :
    parse_resume_direct oracle gen c resumeC1 =
      ⟨.ok ⟨.str "Engineer.", .list [.str "Python", .str "SQL"],
            .list [.obj [("title", .str "Dev"), ("company", .str "Acme"),
                         ("date_range", .str dateRangeC1),
                         ("projects", .list [.obj
                            [("uuid", .str (gen c)),
                             ("title", .str (clean_title t)),
                             ("description", .str (clean_description d t)),
                             ("contributions", .list [.str "Did A", .str "Did B"])]]),
                         ("uuid", .str (gen (c + 1)))]], 2⟩,
       [LLMCall.queryProjectTitle, LLMCall.queryProjectDescription], c + 2⟩ := by
  have hp : parse_project oracle gen c projectC1 =
      ⟨.ok [("uuid", .str (gen c)), ("title", .str (clean_title t)),
            ("description", .str (clean_description d t)),
            ("contributions", .list [.str "Did A", .str "Did B"])],
       [LLMCall.queryProjectTitle, LLMCall.queryProjectDescription], c + 1⟩ := by
    simp [parse_project, projectC1, search_field, dictLookup, isNull, pyEq, ht, hd]
  have hpl : parse_projects oracle gen c [.obj projectC1] =
      ⟨.ok [.obj [("uuid", .str (gen c)), ("title", .str (clean_title t)),
                  ("description", .str (clean_description d t)),
                  ("contributions", .list [.str "Did A", .str "Did B"])]],
       [LLMCall.queryProjectTitle, LLMCall.queryProjectDescription], c + 1⟩ := by
    simp [parse_projects, hp, Except.map]
  have hx : parse_experience oracle gen c expC1 =
      ⟨.ok [("title", .str "Dev"), ("company", .str "Acme"),
            ("date_range", .str dateRangeC1),
            ("projects", .list [.obj
               [("uuid", .str (gen c)), ("title", .str (clean_title t)),
                ("description", .str (clean_description d t)),
                ("contributions", .list [.str "Did A", .str "Did B"])]])],
       [LLMCall.queryProjectTitle, LLMCall.queryProjectDescription], c + 1⟩ := by
    have hd1 : dictLookup expC1 "start" =
        some (.obj [("year", .num 2020), ("month", .num 1)]) := rfl
    simp [parse_experience, hd1, get_date_range_expC1, Except.map, expC1,
          search_field, dictLookup, isNull, hpl]
    rfl
  have he : parse_expereinces oracle gen c [.obj expC1] =
      ⟨.ok [.obj [("title", .str "Dev"), ("company", .str "Acme"),
                  ("date_range", .str dateRangeC1),
                  ("projects", .list [.obj
                     [("uuid", .str (gen c)), ("title", .str (clean_title t)),
                      ("description", .str (clean_description d t)),
                      ("contributions", .list [.str "Did A", .str "Did B"])]]),
                  ("uuid", .str (gen (c + 1)))]],
       [LLMCall.queryProjectTitle, LLMCall.queryProjectDescription], c + 2⟩ := by
    have hu : (dictLookup expC1 "uuid").isSome = false := rfl
    simp [parse_expereinces, hu, hx, Except.map]
  have hj : parse_json resumeC1 =
      .ok ⟨.str "Engineer.", .list [.str "Python", .str "SQL"], .list [.obj expC1], 2⟩ := rfl
  simp [parse_resume_direct, hj, he, Except.map]

/-- Claim C1 (witness): the amended end-to-end behaviour with a concrete
oracle whose title reply is `"X"` and whose description reply is
`"Built X"`. -/
theorem parse_resume_direct_example_witness :
    parse_resume_direct ⟨fun _ => some "X", fun _ => some "Built X", fun _ => none⟩
        (fun n => "u" ++ Nat.repr n) 0 resumeC1 =
      ⟨.ok ⟨.str "Engineer.", .list [.str "Python", .str "SQL"],
            .list [.obj [("title", .str "Dev"), ("company", .str "Acme"),
                         ("date_range", .str dateRangeC1),
                         ("projects", .list [.obj
                            [("uuid", .str "u0"),
                             ("title", .str "X"),
                             ("description", .str "Built"),
                             ("contributions", .list [.str "Did A", .str "Did B"])]]),
                         ("uuid", .str "u1")]], 2⟩,
       [LLMCall.queryProjectTitle, LLMCall.queryProjectDescription], 2⟩ :=
  parse_resume_direct_example
    ⟨fun _ => some "X", fun _ => some "Built X", fun _ => none⟩
    (fun n => "u" ++ Nat.repr n) 0 "X" "Built X" rfl rfl

end AIJobOptimizer
